import Mathlib

/-!
# Verification of the sud-ai court-decision crawler (`src/parser.py`)

This development shallowly embeds the parts of `parser.py` that the
specification's claims are about:

* the adaptive rate controller (`RateLimitInfo`, `_check_rate_limits`,
  `_adaptive_delay`, and the error-handler escalation shared by
  `get_decisions_list` / `download_pdf_and_extract_text`);
* the record normalizer `parse_decision_from_json` for the two API schemas,
  including the epoch-milliseconds to ISO-8601 conversion performed with
  `datetime.fromtimestamp` (which converts in the host's local timezone,
  modelled here by an explicit `tzOffset` in seconds);
* the per-page attachment batch `_download_pdfs_batch` /
  `save_decision_with_text`, with network fetch + PDF text extraction and the
  text-file write abstracted as per-record oracles (these are I/O whose
  results the control flow branches on);
* the orchestrator `parse_all_decisions`, with HTTP fetches and the
  metadata-file existence check abstracted as oracles, and the externally
  visible actions (page fetches, metadata writes, attachment batches, skips)
  recorded as an event trace.

Python floats are modelled as exact rationals (`ℚ`); the delay arithmetic of
the source only multiplies by the constants 1.5 and 0.9 and clamps with
`min`/`max`, so the interval facts proved here are insensitive to IEEE
rounding. Sleeping, logging and wall-clock reads are elided: they do not
affect any value the claims talk about.
-/

/-- Python truthiness of an optional string (`None` and `""` are falsy). -/
def pyTruthyStr : Option String → Bool
  | none => false
  | some s => s ≠ ""

/-- ASCII whitespace stripped by Python's `int(...)`. -/
def isPySpace (c : Char) : Bool :=
  (c == ' ') || (c == '\t') || (c == '\n') || (c == '\r') ||
  (c == '\x0b') || (c == '\x0c')

/-- Value of a digit string (most significant first). -/
def digitsToNat (l : List Char) : Nat :=
  l.foldl (fun acc c => acc * 10 + (c.toNat - 48)) 0

/-- Models Python's `int(s)` on header strings: surrounding whitespace,
an optional sign, then decimal digits; anything else raises `ValueError`,
modelled as `none`. -/
def pyParseInt (s : String) : Option Int :=
  let t := ((s.data.dropWhile (fun c => isPySpace c)).reverse.dropWhile
              (fun c => isPySpace c)).reverse
  match t with
  | [] => none
  | c :: rest =>
      let sd : Int × List Char :=
        if c = '-' then (-1, rest)
        else if c = '+' then (1, rest)
        else (1, c :: rest)
      if sd.2 = [] then none
      else if sd.2.all Char.isDigit then some (sd.1 * (digitsToNat sd.2 : Int))
      else none

/-- Models `headers.get(A) or headers.get(B)`: the first value if it is
truthy, otherwise the second. -/
def pyOrStr (a b : Option String) : Option String :=
  if pyTruthyStr a then a else b

/-- The delay-related constructor arguments and adaptive settings of
`UzbekCourtAPIParser.__init__`. -/
structure RateConfig where
  delay : ℚ
  min_delay : ℚ
  max_delay : ℚ
  backoff_factor : ℚ
  deriving DecidableEq

/-- The configured instance: `delay=0.3` (the `main()` value, also the
default), `min_delay=0.1`, `max_delay=10.0`, `backoff_factor=1.5`. -/
def defaultRateConfig : RateConfig :=
  { delay := 3/10, min_delay := 1/10, max_delay := 10, backoff_factor := 3/2 }

/-- The `RateLimitInfo` dataclass. -/
structure RateLimitInfo where
  is_limited : Bool
  retry_after : Option Int
  current_delay : ℚ
  consecutive_errors : Nat
  last_request_time : Option ℚ
  deriving DecidableEq

/-- `RateLimitInfo()` with its dataclass defaults (`current_delay = 1.5`). -/
def initRateLimit : RateLimitInfo :=
  { is_limited := false, retry_after := none, current_delay := 3/2,
    consecutive_errors := 0, last_request_time := none }

/-- Lines 180-187 of `_check_rate_limits`: `headers.get('Retry-After')`
followed by the truthiness guard and `int(...)` (a `ValueError` falls
through to the backoff path, modelled as `none`). -/
def parseRetryAfterHdr (hdr : Option String) : Option Int :=
  match hdr with
  | some s => if s = "" then none else pyParseInt s
  | none => none

/-- Lines 175-195 of `_check_rate_limits`: the `status_code == 429` block.
A present, nonempty, parseable `Retry-After` header is stored; otherwise the
delay escalates by `backoff_factor` clamped to `max_delay`. Either way the
function returns `False` immediately (the quota-header block below is
skipped). -/
def crl_429 (cfg : RateConfig) (rl : RateLimitInfo)
    (retryAfterHdr : Option String) : Bool × RateLimitInfo :=
  match parseRetryAfterHdr retryAfterHdr with
  | some n =>
      (false, { rl with is_limited := true,
                        consecutive_errors := rl.consecutive_errors + 1,
                        retry_after := some n })
  | none =>
      (false, { rl with is_limited := true,
                        consecutive_errors := rl.consecutive_errors + 1,
                        current_delay :=
                          min (rl.current_delay * cfg.backoff_factor)
                              cfg.max_delay })

/-- Lines 197-204: the `status_code in [502, 503, 504]` block; also returns
`False` immediately, skipping the quota-header block. -/
def crl_5xx (cfg : RateConfig) (rl : RateLimitInfo) : Bool × RateLimitInfo :=
  let d := min (rl.current_delay * (3/2)) cfg.max_delay
  (false, { rl with consecutive_errors := rl.consecutive_errors + 1,
                    current_delay := d })

/-- Lines 206-215: on a 200 with a pending error streak, reset the streak
and decay the delay (floored at `min_delay`). -/
def crl_success (cfg : RateConfig) (rl : RateLimitInfo) (status : Nat) :
    RateLimitInfo :=
  if status = 200 ∧ rl.consecutive_errors > 0 then
    let d := max (rl.current_delay * (9/10)) cfg.min_delay
    { rl with consecutive_errors := 0, current_delay := d }
  else rl

/-- Lines 217-226: the remaining-quota header check
(`X-RateLimit-Remaining or X-Rate-Limit-Remaining`); below 10 remaining, the
delay is floored at 2.0. Only reached for statuses that did not return
early. -/
def crl_quota (rl : RateLimitInfo) (rem1 rem2 : Option String) : RateLimitInfo :=
  match pyOrStr rem1 rem2 with
  | some s =>
      if s = "" then rl
      else
        match pyParseInt s with
        | some n =>
            if n < 10 then { rl with current_delay := max rl.current_delay 2 }
            else rl
        | none => rl
  | none => rl

/-- `UzbekCourtAPIParser._check_rate_limits`: classifies one HTTP response
(status code, `Retry-After` header, the two remaining-quota headers) and
updates the rate-limit state; returns the `allowProceed` boolean of the
source together with the new state. -/
def check_rate_limits (cfg : RateConfig) (rl : RateLimitInfo) (status : Nat)
    (retryAfterHdr rem1 rem2 : Option String) : Bool × RateLimitInfo :=
  if status = 429 then crl_429 cfg rl retryAfterHdr
  else if status = 502 ∨ status = 503 ∨ status = 504 then crl_5xx cfg rl
  else (true, crl_quota (crl_success cfg rl status) rem1 rem2)

/-- `UzbekCourtAPIParser._adaptive_delay`: returns the duration slept and
the new state; `now` is the wall-clock value stored into
`last_request_time`. Two Python subtleties are modelled: the source guards
with truthiness (`if self.rate_limit.retry_after:`), so a stored value of
`0` is treated as absent; and each branch calls `time.sleep`, which raises
`ValueError` on a negative duration — modelled as `none` — *before* any
statement after the sleep runs, so on that path `retry_after` and
`is_limited` are not cleared and `last_request_time` is not set (the
exception propagates out of the crawler). -/
def adaptive_delay (cfg : RateConfig) (rl : RateLimitInfo) (now : ℚ) :
    Option (ℚ × RateLimitInfo) :=
  match rl.retry_after with
  | some n =>
      if n ≠ 0 then
        let delay := (n : ℚ) + 1/2
        if delay < 0 then none
        else
          some (delay,
            { rl with retry_after := none, is_limited := false,
                      last_request_time := some now })
      else if rl.consecutive_errors > 0 then
        if rl.current_delay < 0 then none
        else some (rl.current_delay, { rl with last_request_time := some now })
      else
        if cfg.delay < 0 then none
        else some (cfg.delay, { rl with last_request_time := some now })
  | none =>
      if rl.consecutive_errors > 0 then
        if rl.current_delay < 0 then none
        else some (rl.current_delay, { rl with last_request_time := some now })
      else
        if cfg.delay < 0 then none
        else some (cfg.delay, { rl with last_request_time := some now })

/-- The `except requests.exceptions.RequestException` handler shared by
`get_decisions_list` and `download_pdf_and_extract_text`: a transport-level
failure escalates the delay like a server error. -/
def bump_transport_error (cfg : RateConfig) (rl : RateLimitInfo) : RateLimitInfo :=
  let d := min (rl.current_delay * (3/2)) cfg.max_delay
  { rl with consecutive_errors := rl.consecutive_errors + 1, current_delay := d }

/-- One observable interaction with the rate controller: an HTTP response
(status plus the three headers the source reads), a transport failure, or a
`_adaptive_delay` call (which consumes `retry_after`). -/
inductive HttpOutcome where
  | response (status : Nat) (retryAfterHdr rem1 rem2 : Option String)
  | transportError
  | delayCall (now : ℚ)
  deriving DecidableEq

/-- One step of the rate-limit state machine. When `_adaptive_delay`
raises (`none`), the exception aborts the run: no statement after the
failed `time.sleep` mutates the state, so the state at the crash is the
unchanged `rl`. -/
def rateStep (cfg : RateConfig) (rl : RateLimitInfo) (o : HttpOutcome) :
    RateLimitInfo :=
  match o with
  | .response status ra r1 r2 => (check_rate_limits cfg rl status ra r1 r2).2
  | .transportError => bump_transport_error cfg rl
  | .delayCall now =>
      match adaptive_delay cfg rl now with
      | some r => r.2
      | none => rl

/-- Run the rate controller from the initial state over a sequence of
observed outcomes. -/
def rateRun (cfg : RateConfig) (outs : List HttpOutcome) : RateLimitInfo :=
  outs.foldl (rateStep cfg) initRateLimit

/-- `currentDelay` lies in the configured `[minDelay, maxDelay]` band. -/
def delayInv (cfg : RateConfig) (rl : RateLimitInfo) : Prop :=
  cfg.min_delay ≤ rl.current_delay ∧ rl.current_delay ≤ cfg.max_delay

/-- Civil date from a day count relative to 1970-01-01 (floor-division form of
the standard days-to-civil algorithm used by `datetime`). -/
def civilFromDays (z0 : Int) : Int × Int × Int :=
  let z := z0 + 719468
  let era := Int.fdiv z 146097
  let doe := z - era * 146097
  let yoe := Int.fdiv (doe - Int.fdiv doe 1460 + Int.fdiv doe 36524 - Int.fdiv doe 146096) 365
  let y := yoe + era * 400
  let doy := doe - (365 * yoe + Int.fdiv yoe 4 - Int.fdiv yoe 100)
  let mp := Int.fdiv (5 * doy + 2) 153
  let d := doy - Int.fdiv (153 * mp + 2) 5 + 1
  let m := mp + (if mp < 10 then 3 else -9)
  (y + (if m ≤ 2 then 1 else 0), m, d)

/-- Decimal rendering of a natural, left-padded with zeros to width `w`. -/
def padNat (w n : Nat) : String :=
  let s := toString n
  String.mk (List.replicate (w - s.length) '0') ++ s

/-- `datetime.fromtimestamp(ms / 1000).isoformat()` for an epoch value given
in milliseconds, already shifted into the timezone to be rendered.
Python renders seconds precision, appending `.ffffff` only when the
microsecond part is nonzero, and raises (here: `none`) when the year falls
outside `1..9999`. -/
def isoOfEpochMs (totalMs : Int) : Option String :=
  let secs := Int.fdiv totalMs 1000
  let us := (totalMs - secs * 1000).toNat * 1000
  let days := Int.fdiv secs 86400
  let sod := (secs - days * 86400).toNat
  let ymd := civilFromDays days
  if 1 ≤ ymd.1 ∧ ymd.1 ≤ 9999 then
    some (padNat 4 ymd.1.toNat ++ "-" ++ padNat 2 ymd.2.1.toNat ++ "-" ++
          padNat 2 ymd.2.2.toNat ++ "T" ++ padNat 2 (sod / 3600) ++ ":" ++
          padNat 2 (sod % 3600 / 60) ++ ":" ++ padNat 2 (sod % 60) ++
          (if us = 0 then "" else "." ++ padNat 6 us))
  else none

/-- `datetime.fromtimestamp(ms / 1000).isoformat()`: `fromtimestamp` without
a `tz` argument converts into the *host's local timezone*, modelled by the
explicit offset (seconds east of UTC). -/
def pythonFromtimestampIso (tzOffsetSec ms : Int) : Option String :=
  isoOfEpochMs (ms + tzOffsetSec * 1000)

/-- The `CourtDecision` dataclass. `extracted_text` is the transient raw-text
field that `to_dict` strips before any metadata serialization. -/
structure CourtDecision where
  id : String
  case_number : String
  court_name_uz : String
  court_name_ru : String
  responsible_judge : Option String
  speaker_judge : Option String
  hearing_date : String
  result : String
  «instance» : String
  categories : List (List (String × String))
  pdf_id : String
  pdf_name : String
  pdf_size : Int
  pdf_url : String
  text_file_path : Option String := none
  text_file_relative_path : Option String := none
  text_extraction_success : Bool := false
  extracted_text : Option String := none
  deriving DecidableEq

/-- The nested `pdf` object of a new-schema listing entry; `none` fields
model keys absent from the JSON (indexing them raises `KeyError`). -/
structure PdfField where
  id : Option String
  name : Option String
  size : Option Int
  deriving DecidableEq

/-- A raw new-schema listing entry. -/
structure NewEntry where
  id : Option String
  case_number : Option String
  court_names : Option (List (String × String))
  responsible_judge_name : Option String
  speaker_judge_name : Option String
  hearing_date : Option String
  result : Option String
  «instance» : Option String
  categories : Option (List (List (String × String)))
  pdf : Option PdfField
  deriving DecidableEq

/-- The `fileData` object of an old-schema attachment. -/
structure FileData where
  id : Option Int
  name : Option String
  size : Option Int
  deriving DecidableEq

/-- One element of an old-schema `attachmentsList`. -/
structure OldAttachment where
  fileData : Option FileData
  deriving DecidableEq

/-- An old-schema date value as found in the JSON: an integer (epoch
milliseconds) or an already-formatted string. -/
inductive JsonDate where
  | int (n : Int)
  | str (s : String)
  deriving DecidableEq

/-- A raw old-schema listing entry. -/
structure OldEntry where
  id : Option Int
  attachmentsList : Option (List OldAttachment)
  caseNumber : Option String
  dbName : Option String
  judge : Option String
  hearingDate : Option JsonDate
  result : Option String
  category : Option String
  deriving DecidableEq

/-- The `period == "new"` branch of
`UzbekCourtAPIParser.parse_decision_from_json`; a missing required key
raises `KeyError`, caught and turned into `None`. -/
def parse_decision_new (e : NewEntry) : Option CourtDecision := do
  let pdf ← e.pdf
  let pdf_id ← pdf.id
  let i ← e.id
  let case_number ← e.case_number
  let court_names ← e.court_names
  let hearing_date ← e.hearing_date
  let result ← e.result
  let inst ← e.«instance»
  let pdf_name ← pdf.name
  let pdf_size ← pdf.size
  some { id := i, case_number := case_number,
         court_name_uz := (court_names.lookup "uz").getD "",
         court_name_ru := (court_names.lookup "ru").getD "",
         responsible_judge := e.responsible_judge_name,
         speaker_judge := e.speaker_judge_name,
         hearing_date := hearing_date, result := result, «instance» := inst,
         categories := e.categories.getD [], pdf_id := pdf_id,
         pdf_name := pdf_name, pdf_size := pdf_size,
         pdf_url := "https://adolatapi1.sud.uz/public/onStream/" ++ pdf_id }

/-- Lines 361-364 of `parse_decision_from_json`: the old-schema hearing
date. Only a *truthy* integer value is converted (a `0` stays an `int` and
the final `hearing_date or ''` turns it into `""`); strings pass through;
absence yields `""`. -/
def old_hearing_date (tzOffsetSec : Int) (hd : Option JsonDate) : Option String :=
  match hd with
  | some (.int n) =>
      if n ≠ 0 then pythonFromtimestampIso tzOffsetSec n else some ""
  | some (.str s) => some s
  | none => some ""

/-- The `else` (old-schema) branch of `parse_decision_from_json`. An absent
or empty `attachmentsList` yields `None`; a truthy integer `hearingDate` is
converted with `datetime.fromtimestamp` (local time, see
`pythonFromtimestampIso`); `instance` is the constant `"FIRST"`. -/
def parse_decision_old (tzOffsetSec : Int) (e : OldEntry) : Option CourtDecision :=
  match e.attachmentsList with
  | some (att0 :: _) => do
      let fd ← att0.fileData
      let fdid ← fd.id
      let pdf_id := toString fdid
      let eid ← e.id
      let hearing_date ← old_hearing_date tzOffsetSec e.hearingDate
      let categories : List (List (String × String)) :=
        match e.category with
        | some c => if c ≠ "" then [[("uz", c)]] else []
        | none => []
      let pdf_name ← fd.name
      let pdf_size ← fd.size
      some { id := toString eid, case_number := e.caseNumber.getD "",
             court_name_uz := e.dbName.getD "", court_name_ru := e.dbName.getD "",
             responsible_judge := e.judge, speaker_judge := none,
             hearing_date := hearing_date, result := e.result.getD "",
             «instance» := "FIRST", categories := categories, pdf_id := pdf_id,
             pdf_name := pdf_name, pdf_size := pdf_size,
             pdf_url := "https://publication.sud.uz/api/file/download/" ++
                        pdf_id ++ "/" }
  | _ => none

/-- A raw listing entry of either schema. -/
inductive CatalogEntry where
  | newE (e : NewEntry)
  | oldE (e : OldEntry)
  deriving DecidableEq

/-- `UzbekCourtAPIParser.parse_decision_from_json`. Feeding an entry of the
other schema into a branch makes the required-key accesses fail
(`KeyError` for `"new"`, the `attachmentsList` guard for the old branch),
yielding `None`. -/
def parse_decision_from_json (tzOffsetSec : Int) (period : String)
    (e : CatalogEntry) : Option CourtDecision :=
  if period = "new" then
    match e with
    | .newE ne => parse_decision_new ne
    | .oldE _ => none
  else
    match e with
    | .oldE oe => parse_decision_old tzOffsetSec oe
    | .newE _ => none

/-- Character-by-character replacement (the meaning of the chained
`str.replace` calls in `_create_safe_filename`, all targets mapping to a
single character). -/
def replaceChars (f : Char → Char) (s : String) : String :=
  String.mk (s.data.map f)

/-- `UzbekCourtAPIParser._create_safe_filename`. -/
def create_safe_filename (d : CourtDecision) : String :=
  let case_num :=
    replaceChars (fun c => if c = '/' ∨ c = '\\' then '_' else c) d.case_number
  let safe_name := case_num ++ "_" ++ (d.id.take 8)
  replaceChars
    (fun c =>
      if c = '<' ∨ c = '>' ∨ c = ':' ∨ c = '"' ∨ c = '|' ∨ c = '?' ∨ c = '*'
      then '_' else c)
    safe_name

/-- `UzbekCourtAPIParser.save_decision_with_text`. The file write is
abstracted by `writeOk` (`false` models the `except` branch); on a failed
write both path fields are reset to `None`, but the caller's
`text_extraction_success` flag is untouched. -/
def save_decision_with_text (writeOk : Bool) (d : CourtDecision) : CourtDecision :=
  if pyTruthyStr d.extracted_text then
    let safe := create_safe_filename d
    if writeOk then
      { d with text_file_path := some ("extracted_text/" ++ safe ++ ".txt"),
               text_file_relative_path :=
                 some ("../extracted_text/" ++ safe ++ ".txt") }
    else
      { d with text_file_path := none, text_file_relative_path := none }
  else
    { d with text_file_path := none, text_file_relative_path := none }

/-- The per-future completion handler inside
`UzbekCourtAPIParser._download_pdfs_batch`: `res` is the outcome of
`_process_single_decision` (`.error` models an exception escaping the task,
`.ok none` a failed download/extraction, `.ok (some t)` extracted text). -/
def process_one_result (res : Except Unit (Option String)) (writeOk : Bool)
    (d : CourtDecision) : CourtDecision :=
  match res with
  | .ok (some t) =>
      if t ≠ "" then
        save_decision_with_text writeOk
          { d with extracted_text := some t, text_extraction_success := true }
      else { d with text_extraction_success := false }
  | .ok none => { d with text_extraction_success := false }
  | .error _ => { d with text_extraction_success := false }

/-- `UzbekCourtAPIParser._download_pdfs_batch`: each record is patched in
place from its own task's outcome; the list order is never changed. -/
def download_pdfs_batch (outs : List (Except Unit (Option String) × Bool))
    (ds : List CourtDecision) : List CourtDecision :=
  List.zipWith (fun ow d => process_one_result ow.1 ow.2 d) outs ds

/-- The uniform shape `get_decisions_list` returns after unwrapping the
old-schema `data` envelope: `{content, totalPages, totalElements}`. -/
structure PageData where
  totalPages : Nat
  totalElements : Nat
  content : List CatalogEntry
  deriving DecidableEq

/-- The keyword arguments of `UzbekCourtAPIParser.parse_all_decisions`. -/
structure CrawlParams where
  «section» : String
  max_pages : Option Nat
  download_pdfs : Bool
  max_workers : Nat
  start_page : Nat
  end_page : Option Nat
  overwrite_files : Bool
  deriving DecidableEq

/-- The I/O surrounding the orchestrator, abstracted: `fetch period page`
is the value `get_decisions_list` returns (`none` = request failure),
`existsMeta` is `page_metadata_file.exists()`, `taskResult period page i`
is what `_process_single_decision` yields for the `i`-th record of the page
(`.error ()` = an exception escaping the task), `writeOk` is whether the
text-file write of that record succeeds, and `tzOffset` is the host's local
timezone offset used by `datetime.fromtimestamp`. -/
structure CrawlOracles where
  fetch : String → Nat → Option PageData
  existsMeta : String → Nat → Bool
  taskResult : String → Nat → Nat → Except Unit (Option String)
  writeOk : String → Nat → Nat → Bool
  tzOffset : Int

/-- The subset of `self.stats` counters the orchestration code itself
mutates (`texts_extracted` etc. are updated inside the downloading I/O that
the oracles abstract). -/
structure RunStats where
  pages_processed : Nat
  decisions_found : Nat
  errors : Nat
  deriving DecidableEq

/-- The zero counters set up in `__init__`. -/
def initStats : RunStats :=
  { pages_processed := 0, decisions_found := 0, errors := 0 }

/-- The externally visible actions of one orchestrator run, in order. -/
inductive CrawlEvent where
  | fetchPage (period : String) (page : Nat)
  | skipExisting (period : String) (page : Nat)
  | writeMetadata (period : String) (page : Nat) (records : List CourtDecision)
  | runBatch (period : String) (page : Nat) (records : List CourtDecision)
  deriving DecidableEq

/-- The per-record outcome list handed to `download_pdfs_batch` for one
page, read off the oracles in record order. -/
def batchOutcomes (orc : CrawlOracles) (period : String) (page n : Nat) :
    List (Except Unit (Option String) × Bool) :=
  (List.range n).map (fun i => (orc.taskResult period page i, orc.writeOk period page i))

/-- Lines 588-604 of `parse_all_decisions`: normalize the fetched page's
entries, drop `None`s, extend `all_decisions`, persist metadata and run the
attachment batch when there are records, and bump `pages_processed`.
Returns the new stats, the page's emitted events (after the caller's `evs`
prefix), and the new `all_decisions` (which aliases the page's records,
hence receives the batch's patches). -/
def processFetchedPage (orc : CrawlOracles) (p : CrawlParams) (period : String)
    (st : RunStats) (all : List CourtDecision) (page : Nat) (pd : PageData)
    (evs : List CrawlEvent) : RunStats × List CrawlEvent × List CourtDecision :=
  let page_decisions :=
    pd.content.filterMap (parse_decision_from_json orc.tzOffset period)
  let next :=
    if page_decisions ≠ [] then
      let st := { st with decisions_found :=
                    st.decisions_found + page_decisions.length }
      let evs := evs ++ [.writeMetadata period page page_decisions]
      if p.download_pdfs then
        let patched := download_pdfs_batch
          (batchOutcomes orc period page page_decisions.length) page_decisions
        (st, evs ++ [.runBatch period page patched], all ++ patched)
      else (st, evs, all ++ page_decisions)
    else (st, evs, all)
  ({ next.1 with pages_processed := next.1.pages_processed + 1 },
   next.2.1, next.2.2)

/-- The body of the `for page in range(start_page, actual_end_page)` loop of
`parse_all_decisions`: skip when the metadata artifact exists and overwrite
is off (the `continue` bypasses the `pages_processed` increment), reuse the
preloaded first page when `page == start_page == 0`, otherwise fetch (a
failed fetch `continue`s, also bypassing the increment), then hand the page
data to `processFetchedPage`. -/
def processPage (orc : CrawlOracles) (p : CrawlParams) (period : String)
    (first : PageData) (st : RunStats) (all : List CourtDecision) (page : Nat) :
    RunStats × List CrawlEvent × List CourtDecision :=
  if p.overwrite_files = false ∧ orc.existsMeta period page = true then
    (st, [.skipExisting period page], all)
  else if page = p.start_page ∧ p.start_page = 0 then
    processFetchedPage orc p period st all page first []
  else
    match orc.fetch period page with
    | some pd =>
        processFetchedPage orc p period st all page pd [.fetchPage period page]
    | none =>
        ({ st with errors := st.errors + 1 }, [.fetchPage period page], all)

/-- `total_pages = min(total_pages, max_pages)` under `if max_pages:`
(Python truthiness: `max_pages=0` disables the clamp like `None`). -/
def effectiveTotalPages (max_pages : Option Nat) (totalPages : Nat) : Nat :=
  match max_pages with
  | some m => if m ≠ 0 then min totalPages m else totalPages
  | none => totalPages

/-- `actual_end_page`: `min(end_page + 1, total_pages)` when an inclusive
`end_page` is supplied, else `total_pages`. -/
def actualEndPage (end_page : Option Nat) (totalPages : Nat) : Nat :=
  match end_page with
  | some e => min (e + 1) totalPages
  | none => totalPages

/-- The page indices the section loop iterates:
`range(start_page, actual_end_page)`. -/
def sectionPageList (start aep : Nat) : List Nat :=
  List.range' start (aep - start)

/-- One iteration of the `for court_type, period in sections_to_process`
loop: fetch page 0 to discover totals (failure skips the section, counted
as an error inside `get_decisions_list`), compute the effective range, run
the two skip checks, then fold the page loop. -/
def processSection (orc : CrawlOracles) (p : CrawlParams)
    (acc : RunStats × List CrawlEvent × List CourtDecision)
    (sec : String × String) : RunStats × List CrawlEvent × List CourtDecision :=
  let (st, evs, all) := acc
  let period := sec.2
  match orc.fetch period 0 with
  | none => ({ st with errors := st.errors + 1 }, evs ++ [.fetchPage period 0], all)
  | some first =>
      let evs := evs ++ [.fetchPage period 0]
      let total_pages := effectiveTotalPages p.max_pages first.totalPages
      let aep := actualEndPage p.end_page total_pages
      if p.start_page > 0 ∧ p.start_page ≥ total_pages then (st, evs, all)
      else if p.start_page ≥ aep then (st, evs, all)
      else
        (sectionPageList p.start_page aep).foldl
          (fun acc page =>
            let (st, evs, all) := acc
            let r := processPage orc p period first st all page
            (r.1, evs ++ r.2.1, r.2.2))
          (st, evs, all)

/-- `sections_to_process` from the `section` argument; `none` models the
`ValueError` for any other value. -/
def sectionsFor (s : String) : Option (List (String × String)) :=
  if s = "new" then some [("ECONOMIC", "new")]
  else if s = "old" then some [("ECONOMIC", "old")]
  else if s = "both" then some [("ECONOMIC", "new"), ("ECONOMIC", "old")]
  else none

/-- `UzbekCourtAPIParser.parse_all_decisions`: the full run, returning the
collected decisions, the final statistics, and the event trace (`none`
models the `ValueError` on a bad `section`). -/
def parse_all_decisions (orc : CrawlOracles) (p : CrawlParams) :
    Option (List CourtDecision × RunStats × List CrawlEvent) :=
  match sectionsFor p.«section» with
  | none => none
  | some secs =>
      let r := secs.foldl (processSection orc p) (initStats, [], [])
      some (r.2.2, r.1, r.2.1)

/-! ## Concrete sample data used by counterexamples and witnesses -/

/-- A 60-character extracted text, above the 50-character minimum that
`extract_text_from_pdf` enforces before returning text. -/
def sampleLongText : String := String.mk (List.replicate 60 'x')

/-- A freshly normalized record, as `parse_decision_from_json` produces it:
path fields `None`, `text_extraction_success = False`. -/
def sampleFreshDecision : CourtDecision :=
  { id := "abc12345", case_number := "4-10-2301_152", court_name_uz := "Sud",
    court_name_ru := "Sud", responsible_judge := none, speaker_judge := none,
    hearing_date := "2023-11-14T22:13:20", result := "granted",
    «instance» := "FIRST", categories := [], pdf_id := "99",
    pdf_name := "doc.pdf", pdf_size := 12345,
    pdf_url := "https://publication.sud.uz/api/file/download/99/" }

/-- Ten fresh records for the one-failure-among-ten batch example. -/
def exBatchDecisions : List CourtDecision :=
  (List.range 10).map (fun i => { sampleFreshDecision with id := toString i ++ "abcdefg" })

/-- Outcomes for the ten-record batch: the record at index 3 fails its
fetch/extraction, the other nine succeed with writable text files. -/
def exBatchOutcomes : List (Except Unit (Option String) × Bool) :=
  (List.range 10).map
    (fun i => (if i = 3 then Except.ok none else Except.ok (some sampleLongText), true))

/-- An old-schema entry with `hearingDate = 1700000000000` (epoch ms). -/
def c4Entry : OldEntry :=
  { id := some 7,
    attachmentsList :=
      some [{ fileData := some { id := some 123, name := some "doc.pdf",
                                 size := some 1000 } }],
    caseNumber := some "A-1", dbName := some "Court", judge := none,
    hearingDate := some (.int 1700000000000), result := some "ok",
    category := none }

/-- What the normalizer produces from `c4Entry` on a host 5 hours east of
UTC (Tashkent). -/
def c4RecordTashkent : CourtDecision :=
  { id := "7", case_number := "A-1", court_name_uz := "Court",
    court_name_ru := "Court", responsible_judge := none, speaker_judge := none,
    hearing_date := "2023-11-15T03:13:20", result := "ok",
    «instance» := "FIRST", categories := [], pdf_id := "123",
    pdf_name := "doc.pdf", pdf_size := 1000,
    pdf_url := "https://publication.sud.uz/api/file/download/123/" }

/-- A small old-schema entry without a hearing date, for orchestrator runs. -/
def plainOldEntry : OldEntry :=
  { id := some 1,
    attachmentsList :=
      some [{ fileData := some { id := some 9, name := some "f.pdf",
                                 size := some 100 } }],
    caseNumber := some "N-1", dbName := some "C", judge := none,
    hearingDate := none, result := some "r", category := none }

/-- The normalizer's output for `plainOldEntry`. -/
def plainOldRecord : CourtDecision :=
  { id := "1", case_number := "N-1", court_name_uz := "C", court_name_ru := "C",
    responsible_judge := none, speaker_judge := none, hearing_date := "",
    result := "r", «instance» := "FIRST", categories := [], pdf_id := "9",
    pdf_name := "f.pdf", pdf_size := 100,
    pdf_url := "https://publication.sud.uz/api/file/download/9/" }

/-- `plainOldRecord` after a successful fetch, extraction and text write. -/
def plainOldRecordPatched : CourtDecision :=
  { plainOldRecord with
      extracted_text := some sampleLongText,
      text_extraction_success := true,
      text_file_path := some "extracted_text/N-1_1.txt",
      text_file_relative_path := some "../extracted_text/N-1_1.txt" }

/-- An old-schema entry with no `attachmentsList`: the normalizer drops it. -/
def noAttachEntry : OldEntry :=
  { id := some 2, attachmentsList := none, caseNumber := none, dbName := none,
    judge := none, hearingDate := none, result := none, category := none }

/-- Default run parameters used by the concrete orchestrator runs. -/
def baseParams : CrawlParams :=
  { «section» := "old", max_pages := none, download_pdfs := true,
    max_workers := 6, start_page := 0, end_page := none,
    overwrite_files := false }

/-- Environment for the C3 run: one old-section page with one record whose
attachment downloads, extracts and writes successfully. -/
def orcC3 : CrawlOracles :=
  { fetch := fun period page =>
      if period = "old" ∧ page = 0 then
        some { totalPages := 1, totalElements := 1,
               content := [.oldE plainOldEntry] }
      else none,
    existsMeta := fun _ _ => false,
    taskResult := fun _ _ _ => .ok (some sampleLongText),
    writeOk := fun _ _ _ => true,
    tzOffset := 0 }

/-- A two-page old section whose listing always succeeds. -/
def pageTwoOf : PageData :=
  { totalPages := 2, totalElements := 2, content := [.oldE plainOldEntry] }

/-- Environment for the C6 run: two pages; page 0's metadata artifact
already exists on disk. -/
def orcC6 : CrawlOracles :=
  { fetch := fun period page =>
      if period = "old" ∧ page ≤ 1 then some pageTwoOf else none,
    existsMeta := fun _ page => page = 0,
    taskResult := fun _ _ _ => .ok none,
    writeOk := fun _ _ _ => false,
    tzOffset := 0 }

/-- Environment for the C9 run: a five-page old section. -/
def orcC9 : CrawlOracles :=
  { fetch := fun period page =>
      if period = "old" ∧ page ≤ 1 then
        some { totalPages := 5, totalElements := 5,
               content := [.oldE plainOldEntry] }
      else none,
    existsMeta := fun _ _ => false,
    taskResult := fun _ _ _ => .ok none,
    writeOk := fun _ _ _ => false,
    tzOffset := 0 }

/-- A page whose only entry the normalizer drops (no attachments), so the
normalized record list is empty. -/
def pageAllDropped : PageData :=
  { totalPages := 2, totalElements := 2, content := [.oldE noAttachEntry] }

/-- Environment for the C10 witness: the fetched page normalizes to zero
records, and no metadata artifact exists. -/
def orcC10 : CrawlOracles :=
  { fetch := fun period page =>
      if period = "old" ∧ page ≤ 1 then some pageAllDropped else none,
    existsMeta := fun _ _ => false,
    taskResult := fun _ _ _ => .ok none,
    writeOk := fun _ _ _ => false,
    tzOffset := 0 }

/-! ## Helper lemmas -/

lemma delayInv_min_mul (d f : ℚ) (h1 : 1/10 ≤ d) (hf : 1 ≤ f) :
    1/10 ≤ min (d * f) 10 ∧ min (d * f) 10 ≤ 10 := by
  refine ⟨le_min (by nlinarith) (by norm_num), min_le_right _ _⟩

lemma delayInv_decay (d : ℚ) (h2 : d ≤ 10) :
    1/10 ≤ max (d * (9/10)) (1/10) ∧ max (d * (9/10)) (1/10) ≤ 10 := by
  refine ⟨le_max_right _ _, max_le (by nlinarith) (by norm_num)⟩

lemma delayInv_floor2 (d : ℚ) (h1 : 1/10 ≤ d) (h2 : d ≤ 10) :
    1/10 ≤ max d 2 ∧ max d 2 ≤ 10 := by
  refine ⟨le_trans h1 (le_max_left _ _), max_le h2 (by norm_num)⟩

lemma crl_429_delayInv (rl : RateLimitInfo) (ra : Option String)
    (h : delayInv defaultRateConfig rl) :
    delayInv defaultRateConfig (crl_429 defaultRateConfig rl ra).2 := by
  obtain ⟨h1, h2⟩ := h
  simp only [delayInv, defaultRateConfig] at h1 h2 ⊢
  unfold crl_429
  split
  · exact ⟨h1, h2⟩
  · exact delayInv_min_mul _ _ h1 (by norm_num [defaultRateConfig])

lemma crl_5xx_delayInv (rl : RateLimitInfo)
    (h : delayInv defaultRateConfig rl) :
    delayInv defaultRateConfig (crl_5xx defaultRateConfig rl).2 := by
  obtain ⟨h1, h2⟩ := h
  simp only [delayInv, defaultRateConfig] at h1 h2 ⊢
  exact delayInv_min_mul _ _ h1 (by norm_num)

lemma crl_success_delayInv (rl : RateLimitInfo) (status : Nat)
    (h : delayInv defaultRateConfig rl) :
    delayInv defaultRateConfig (crl_success defaultRateConfig rl status) := by
  obtain ⟨h1, h2⟩ := h
  simp only [delayInv, defaultRateConfig] at h1 h2 ⊢
  unfold crl_success
  split
  · exact delayInv_decay _ h2
  · exact ⟨h1, h2⟩

lemma crl_quota_delayInv (rl : RateLimitInfo) (r1 r2 : Option String)
    (h : delayInv defaultRateConfig rl) :
    delayInv defaultRateConfig (crl_quota rl r1 r2) := by
  obtain ⟨h1, h2⟩ := h
  simp only [delayInv, defaultRateConfig] at h1 h2 ⊢
  unfold crl_quota
  split
  · split
    · exact ⟨h1, h2⟩
    · split
      · split
        · exact delayInv_floor2 _ h1 h2
        · exact ⟨h1, h2⟩
      · exact ⟨h1, h2⟩
  · exact ⟨h1, h2⟩

lemma adaptive_delay_keeps_current_delay (cfg : RateConfig)
    (rl : RateLimitInfo) (now : ℚ) (r : ℚ × RateLimitInfo)
    (h : adaptive_delay cfg rl now = some r) :
    r.2.current_delay = rl.current_delay := by
  obtain ⟨il, ra, cd, ce, lt⟩ := rl
  rcases ra with _ | n <;>
    (unfold adaptive_delay at h; dsimp only at h) <;>
    (repeat' split at h) <;>
    first
      | exact Option.noConfusion h
      | (cases h; rfl)

lemma rateStep_delayInv (rl : RateLimitInfo) (o : HttpOutcome)
    (h : delayInv defaultRateConfig rl) :
    delayInv defaultRateConfig (rateStep defaultRateConfig rl o) := by
  cases o with
  | response status ra r1 r2 =>
      simp only [rateStep]
      unfold check_rate_limits
      split
      · exact crl_429_delayInv rl ra h
      · split
        · exact crl_5xx_delayInv rl h
        · exact crl_quota_delayInv _ r1 r2 (crl_success_delayInv rl status h)
  | transportError =>
      obtain ⟨h1, h2⟩ := h
      simp only [delayInv, defaultRateConfig] at h1 h2 ⊢
      exact delayInv_min_mul _ _ h1 (by norm_num)
  | delayCall now =>
      obtain ⟨h1, h2⟩ := h
      simp only [rateStep]
      rcases hval : adaptive_delay defaultRateConfig rl now with _ | r
      · exact ⟨h1, h2⟩
      · have hkeep :=
          adaptive_delay_keeps_current_delay defaultRateConfig rl now r hval
        unfold delayInv
        rw [hkeep]
        exact ⟨h1, h2⟩

lemma rateRun_delayInv_aux (outs : List HttpOutcome) :
    ∀ rl, delayInv defaultRateConfig rl →
      delayInv defaultRateConfig (outs.foldl (rateStep defaultRateConfig) rl) := by
  induction outs with
  | nil => intro rl h; exact h
  | cons o rest ih => intro rl h; exact ih _ (rateStep_delayInv rl o h)

/-! ## Claim theorems: rate controller -/

/-- C1: for every sequence of observed HTTP outcomes (429 with or without a
parseable `Retry-After`, 502/503/504, 200, transport failure, interleaved
`_adaptive_delay` calls) starting from the initial state, `currentDelay`
stays within `[minDelay, maxDelay] = [0.1, 10.0]` of the configured
instance. Every prefix of a sequence is itself a sequence, so this bounds
the delay after each observation. -/
theorem c1_currentDelay_within_bounds (outs : List HttpOutcome) :
    1/10 ≤ (rateRun defaultRateConfig outs).current_delay ∧
    (rateRun defaultRateConfig outs).current_delay ≤ 10 := by
  have h := rateRun_delayInv_aux outs initRateLimit
    (by norm_num [delayInv, initRateLimit, defaultRateConfig])
  simpa [delayInv, defaultRateConfig, rateRun] using h

/-- C7 counterexample: a 429 whose `Retry-After` header parses to `0`
stores `retry_after = 0`, yet the very next `_adaptive_delay` call returns
`current_delay` (1.5), not `0 + 0.5`, and neither clears the stored value
nor resets `is_limited` — the source guards with Python truthiness, which
treats the stored `0` as absent. -/
theorem c7_counterexample_zero_retry_after :
    (check_rate_limits defaultRateConfig initRateLimit 429 (some "0") none none).2
      = { is_limited := true, retry_after := some 0, current_delay := 3/2,
          consecutive_errors := 1, last_request_time := none } ∧
    adaptive_delay defaultRateConfig
        { is_limited := true, retry_after := some 0, current_delay := 3/2,
          consecutive_errors := 1, last_request_time := none } 0
      = some (3/2,
          { is_limited := true, retry_after := some 0, current_delay := 3/2,
            consecutive_errors := 1, last_request_time := some 0 }) ∧
    ¬ ((3 : ℚ)/2 = 0 + 1/2) := by
  refine ⟨rfl, ?_, by norm_num⟩
  unfold adaptive_delay
  dsimp only
  rw [if_neg (by simp : ¬ ((0 : Int) ≠ 0)), if_pos (by norm_num : (0 : Nat) < 1),
      if_neg (by norm_num : ¬ ((3 : ℚ)/2 < 0))]

/-- C7 (amended): when `retryAfterSeconds` holds a *positive* value, the
very next `nextDelay()` call returns that value plus the 0.5 margin and, as
a side effect, clears `retryAfterSeconds` and the `limited` flag; a stored
*negative* value (a parseable negative `Retry-After` header is storable)
makes `time.sleep` raise `ValueError` before the clearing statements run,
so the call aborts with the state unchanged; when the stored value is
unset — or the Python-falsy `0` — `nextDelay()` returns `currentDelay` if
`consecutiveErrors > 0` and the base delay otherwise (leaving the stored
`0` in place), provided the slept duration is nonnegative, as it always is
in the configured instance. -/
theorem c7_amended_next_delay (cfg : RateConfig) (rl : RateLimitInfo) (now : ℚ) :
    (∀ n : Int, rl.retry_after = some n → 0 < n →
      adaptive_delay cfg rl now =
        some ((n : ℚ) + 1/2,
          { rl with retry_after := none, is_limited := false,
                    last_request_time := some now })) ∧
    (∀ n : Int, rl.retry_after = some n → n < 0 →
      adaptive_delay cfg rl now = none) ∧
    ((rl.retry_after = none ∨ rl.retry_after = some 0) →
      0 ≤ rl.current_delay → 0 ≤ cfg.delay →
      adaptive_delay cfg rl now =
        some ((if rl.consecutive_errors > 0 then rl.current_delay else cfg.delay),
          { rl with last_request_time := some now })) := by
  obtain ⟨il, ra, cd, ce, lt⟩ := rl
  refine ⟨?_, ?_, ?_⟩
  · intro n hn hpos
    cases hn
    unfold adaptive_delay
    dsimp only
    have hcast : (0 : ℚ) < (n : ℚ) := by exact_mod_cast hpos
    rw [if_pos (by omega : n ≠ 0), if_neg (by linarith : ¬ ((n : ℚ) + 1/2 < 0))]
  · intro n hn hneg
    cases hn
    unfold adaptive_delay
    dsimp only
    have hint : n ≤ -1 := by omega
    have hcast : (n : ℚ) ≤ -1 := by exact_mod_cast hint
    rw [if_pos (by omega : n ≠ 0), if_pos (by linarith : (n : ℚ) + 1/2 < 0)]
  · intro hcase hcd hbase
    rcases hcase with hr | hr
    · cases hr
      unfold adaptive_delay
      dsimp only
      by_cases hce : 0 < ce
      · rw [if_pos hce, if_neg (not_lt.mpr hcd)]
        simp [hce]
      · rw [if_neg hce, if_neg (not_lt.mpr hbase)]
        simp [hce]
    · cases hr
      unfold adaptive_delay
      dsimp only
      rw [if_neg (by simp : ¬ ((0 : Int) ≠ 0))]
      by_cases hce : 0 < ce
      · rw [if_pos hce, if_neg (not_lt.mpr hcd)]
        simp [hce]
      · rw [if_neg hce, if_neg (not_lt.mpr hbase)]
        simp [hce]

/-- C7 amended witness: a stored `Retry-After` of 30 is consumed by the
next call, which returns 30.5 and clears the flags. -/
theorem c7_amended_next_delay_witness :
    adaptive_delay defaultRateConfig
      { is_limited := true, retry_after := some 30, current_delay := 3/2,
        consecutive_errors := 1, last_request_time := none } 5 =
      some ((30 : ℚ) + 1/2,
        { is_limited := false, retry_after := none, current_delay := 3/2,
          consecutive_errors := 1, last_request_time := some 5 }) := by
  have h := (c7_amended_next_delay defaultRateConfig
    { is_limited := true, retry_after := some 30, current_delay := 3/2,
      consecutive_errors := 1, last_request_time := none } 5).1 30 rfl (by decide)
  simpa using h

/-- C8 counterexample: a 429 carrying both a parseable `Retry-After` and a
remaining-quota header of "5" (< 10) returns from the 429 block before the
quota check runs, leaving `currentDelay = 1.5 < 2.0`; the quota floor is
*not* applied "regardless of status". -/
theorem c8_counterexample_429_skips_quota_floor :
    pyParseInt "5" = some 5 ∧ (5 : Int) < 10 ∧
    (check_rate_limits defaultRateConfig initRateLimit 429 (some "30") (some "5") none).2.current_delay
      = 3/2 ∧
    ¬ (2 ≤ (check_rate_limits defaultRateConfig initRateLimit
              429 (some "30") (some "5") none).2.current_delay) := by
  refine ⟨rfl, by norm_num, rfl, ?_⟩
  have h : (check_rate_limits defaultRateConfig initRateLimit
      429 (some "30") (some "5") none).2.current_delay = 3/2 := rfl
  rw [h]
  norm_num

/-- C8 (amended): the low-quota floor of 2.0 applies exactly on the code
paths that reach the header check — i.e. for every status other than 429
and 502/503/504 (such as 200): if the effective remaining-quota header is
present, nonempty and parses below 10, the new `currentDelay` is at least
2.0. On 429 and 502/503/504 the function returns before the check. -/
theorem c8_amended_quota_floor (cfg : RateConfig) (rl : RateLimitInfo)
    (status : Nat) (ra r1 r2 : Option String) (s : String) (n : Int)
    (h429 : status ≠ 429) (h5xx : ¬(status = 502 ∨ status = 503 ∨ status = 504))
    (hrem : pyOrStr r1 r2 = some s) (hs : s ≠ "")
    (hp : pyParseInt s = some n) (hn : n < 10) :
    2 ≤ (check_rate_limits cfg rl status ra r1 r2).2.current_delay := by
  unfold check_rate_limits
  rw [if_neg h429, if_neg h5xx]
  unfold crl_quota
  rw [hrem]
  dsimp only
  rw [if_neg hs, hp]
  dsimp only
  rw [if_pos hn]
  exact le_max_right _ _

/-- C8 amended witness: a 200 response with remaining-quota "5" floors the
delay at 2.0. -/
theorem c8_amended_quota_floor_witness :
    2 ≤ (check_rate_limits defaultRateConfig initRateLimit
          200 none (some "5") none).2.current_delay :=
  c8_amended_quota_floor defaultRateConfig initRateLimit 200 none (some "5")
    none "5" 5 (by decide) (by decide) (by decide) (by decide) (by decide)
    (by decide)

/-! ## Helper lemmas: attachment batch and page step -/

lemma download_pdfs_batch_getElem
    (outs : List (Except Unit (Option String) × Bool))
    (ds : List CourtDecision) (i : Nat)
    (ow : Except Unit (Option String) × Bool) (d : CourtDecision)
    (h1 : outs[i]? = some ow) (h2 : ds[i]? = some d) :
    (download_pdfs_batch outs ds)[i]? =
      some (process_one_result ow.1 ow.2 d) := by
  induction outs generalizing ds i with
  | nil => simp at h1
  | cons o rest ih =>
      cases ds with
      | nil => simp at h2
      | cons e es =>
          cases i with
          | zero =>
              simp only [List.getElem?_cons_zero, Option.some.injEq] at h1 h2
              subst h1; subst h2
              simp [download_pdfs_batch]
          | succ n =>
              simp only [List.getElem?_cons_succ] at h1 h2
              simpa [download_pdfs_batch] using ih es n h1 h2

lemma create_safe_filename_enriched (d : CourtDecision) (t : String) :
    create_safe_filename
      { d with extracted_text := some t, text_extraction_success := true } =
      create_safe_filename d := rfl

lemma processFetchedPage_events (orc : CrawlOracles) (p : CrawlParams)
    (period : String) (st : RunStats) (all : List CourtDecision) (page : Nat)
    (pd : PageData) (evs : List CrawlEvent) :
    (processFetchedPage orc p period st all page pd evs).2.1 = evs ∨
    ∃ rs : List CourtDecision, rs ≠ [] ∧
      ((processFetchedPage orc p period st all page pd evs).2.1 =
         evs ++ [CrawlEvent.writeMetadata period page rs] ∨
       (processFetchedPage orc p period st all page pd evs).2.1 =
         evs ++ [CrawlEvent.writeMetadata period page rs,
                 CrawlEvent.runBatch period page
                   (download_pdfs_batch (batchOutcomes orc period page rs.length) rs)]) := by
  unfold processFetchedPage
  dsimp only
  by_cases hne :
      pd.content.filterMap (parse_decision_from_json orc.tzOffset period) ≠ []
  · rw [if_pos hne]
    cases hdp : p.download_pdfs
    · rw [if_neg (by simp [hdp])]
      exact Or.inr ⟨_, hne, Or.inl rfl⟩
    · rw [if_pos (by simp [hdp])]
      exact Or.inr ⟨_, hne, Or.inr (by simp)⟩
  · rw [if_neg hne]
    exact Or.inl rfl

lemma processPage_skip_eq (orc : CrawlOracles) (p : CrawlParams)
    (period : String) (first : PageData) (st : RunStats)
    (all : List CourtDecision) (page : Nat)
    (hov : p.overwrite_files = false)
    (hex : orc.existsMeta period page = true) :
    processPage orc p period first st all page =
      (st, [CrawlEvent.skipExisting period page], all) := by
  unfold processPage
  rw [if_pos ⟨hov, hex⟩]

lemma processFetchedPage_empty_eq (orc : CrawlOracles) (p : CrawlParams)
    (period : String) (st : RunStats) (all : List CourtDecision) (page : Nat)
    (pd : PageData) (evs : List CrawlEvent)
    (hempty : pd.content.filterMap (parse_decision_from_json orc.tzOffset period) = []) :
    processFetchedPage orc p period st all page pd evs =
      ({ st with pages_processed := st.pages_processed + 1 }, evs, all) := by
  unfold processFetchedPage
  dsimp only
  rw [if_neg (by simp [hempty])]

/-! ## Claim theorems: attachment batch -/

/-- C2 counterexample: a record whose extraction succeeds but whose text
file write fails ends the batch with `text_extraction_success = true` and
both path fields `None` — `_download_pdfs_batch` sets the flag before
calling `save_decision_with_text`, and the write's `except` branch resets
only the paths, not the flag. This refutes the claimed invariant in exactly
the "write fails after successful extraction" case it includes. -/
theorem c2_counterexample_write_failure :
    download_pdfs_batch [(Except.ok (some sampleLongText), false)]
        [sampleFreshDecision] =
      [{ sampleFreshDecision with
          extracted_text := some sampleLongText,
          text_extraction_success := true }] ∧
    ({ sampleFreshDecision with
        extracted_text := some sampleLongText,
        text_extraction_success := true } : CourtDecision).text_extraction_success
      = true ∧
    ({ sampleFreshDecision with
        extracted_text := some sampleLongText,
        text_extraction_success := true } : CourtDecision).text_file_path
      = none ∧
    ({ sampleFreshDecision with
        extracted_text := some sampleLongText,
        text_extraction_success := true } : CourtDecision).text_file_relative_path
      = none :=
  ⟨rfl, rfl, rfl, rfl⟩

/-- C2 (amended): for records entering the batch with `None` path fields
(as the normalizer produces them), after the batch
`textExtracted = false` implies both path fields are `None`, and
`textExtracted = true` implies both path fields are set — unless the text
file write itself failed, in which case `textExtracted` stays `true` while
both path fields are `None`. -/
theorem c2_amended_path_fields
    (outs : List (Except Unit (Option String) × Bool))
    (ds : List CourtDecision) (i : Nat) (res : Except Unit (Option String))
    (w : Bool) (d r : CourtDecision)
    (hout : outs[i]? = some (res, w)) (hd : ds[i]? = some d)
    (hp : d.text_file_path = none) (hq : d.text_file_relative_path = none)
    (hr : (download_pdfs_batch outs ds)[i]? = some r) :
    (r.text_extraction_success = false →
      r.text_file_path = none ∧ r.text_file_relative_path = none) ∧
    (r.text_extraction_success = true → w = true →
      r.text_file_path =
        some ("extracted_text/" ++ create_safe_filename d ++ ".txt") ∧
      r.text_file_relative_path =
        some ("../extracted_text/" ++ create_safe_filename d ++ ".txt")) ∧
    (r.text_extraction_success = true → w = false →
      r.text_file_path = none ∧ r.text_file_relative_path = none) := by
  have hb := download_pdfs_batch_getElem outs ds i (res, w) d hout hd
  rw [hr] at hb
  obtain rfl : r = process_one_result res w d := Option.some.inj hb
  clear hb hr hout hd
  rcases res with u | o
  · simp [process_one_result, hp, hq]
  · rcases o with _ | t
    · simp [process_one_result, hp, hq]
    · by_cases ht : t = ""
      · simp [process_one_result, ht, hp, hq]
      · cases w
        · simp [process_one_result, save_decision_with_text, pyTruthyStr, ht,
                hp, hq]
        · simp [process_one_result, save_decision_with_text, pyTruthyStr, ht,
                hp, hq]
          exact ⟨rfl, rfl⟩

/-- C2 amended witness: one record with successful extraction but failed
write keeps `text_extraction_success = true` with `None` paths, exercising
every hypothesis of the amended theorem. -/
theorem c2_amended_path_fields_witness :
    (process_one_result (Except.ok (some sampleLongText)) false
        sampleFreshDecision).text_file_path = none ∧
    (process_one_result (Except.ok (some sampleLongText)) false
        sampleFreshDecision).text_file_relative_path = none :=
  (c2_amended_path_fields [(Except.ok (some sampleLongText), false)]
    [sampleFreshDecision] 0 (Except.ok (some sampleLongText)) false
    sampleFreshDecision
    (process_one_result (Except.ok (some sampleLongText)) false
      sampleFreshDecision)
    rfl rfl rfl rfl rfl).2.2 rfl rfl

/-- C5: each output record of `_download_pdfs_batch` is determined by its
own input record and its own task outcome alone (so no failure affects a
sibling), the output preserves the input order and length, a failed task
leaves `textExtracted = false` with the record's (null) paths untouched,
and the concrete one-failure-among-ten batch yields exactly one record with
`textExtracted = false` and nine with `true` and non-null paths. -/
theorem c5_batch_isolation_and_order :
    (∀ (outs : List (Except Unit (Option String) × Bool))
       (ds : List CourtDecision), outs.length = ds.length →
         (download_pdfs_batch outs ds).length = ds.length) ∧
    (∀ (outs : List (Except Unit (Option String) × Bool))
       (ds : List CourtDecision) (i : Nat)
       (res : Except Unit (Option String)) (w : Bool) (d : CourtDecision),
         outs[i]? = some (res, w) → ds[i]? = some d →
         (download_pdfs_batch outs ds)[i]? =
           some (process_one_result res w d)) ∧
    (∀ (res : Except Unit (Option String)) (w : Bool) (d : CourtDecision),
       res = Except.ok none ∨ res = Except.error () →
       (process_one_result res w d).text_extraction_success = false ∧
       (process_one_result res w d).text_file_path = d.text_file_path ∧
       (process_one_result res w d).text_file_relative_path =
         d.text_file_relative_path) ∧
    ((download_pdfs_batch exBatchOutcomes exBatchDecisions).filter
        (fun r => !r.text_extraction_success)).length = 1 ∧
    ((download_pdfs_batch exBatchOutcomes exBatchDecisions).filter
        (fun r => r.text_extraction_success && r.text_file_path.isSome &&
                  r.text_file_relative_path.isSome)).length = 9 := by
  refine ⟨?_, ?_, ?_, rfl, rfl⟩
  · intro outs ds h
    simp [download_pdfs_batch, h]
  · intro outs ds i res w d h1 h2
    exact download_pdfs_batch_getElem outs ds i (res, w) d h1 h2
  · intro res w d h
    rcases h with h | h <;> subst h <;> simp [process_one_result]

/-- C5 witness: in the ten-record batch, the output at the failing index 3
is exactly the per-record result of its own outcome and record. -/
theorem c5_batch_isolation_and_order_witness :
    (download_pdfs_batch exBatchOutcomes exBatchDecisions)[3]? =
      some (process_one_result (Except.ok none) true
        { sampleFreshDecision with id := "3abcdefg" }) :=
  c5_batch_isolation_and_order.2.1 exBatchOutcomes exBatchDecisions 3
    (Except.ok none) true { sampleFreshDecision with id := "3abcdefg" }
    rfl rfl

/-! ## Claim theorems: old-schema hearing date -/

lemma parse_decision_old_hearing (tz : Int) (e : OldEntry) (d : CourtDecision)
    (h : parse_decision_old tz e = some d) :
    old_hearing_date tz e.hearingDate = some d.hearing_date := by
  obtain ⟨eidq, attl, cn, db, j, hdq, resq, catq⟩ := e
  rcases attl with _ | l
  · simp [parse_decision_old] at h
  rcases l with _ | ⟨a0, rest⟩
  · simp [parse_decision_old] at h
  obtain ⟨fdq⟩ := a0
  rcases fdq with _ | fdv
  · simp [parse_decision_old] at h
  obtain ⟨fidq, fnq, fsq⟩ := fdv
  rcases fidq with _ | fid
  · simp [parse_decision_old] at h
  rcases eidq with _ | eid
  · simp [parse_decision_old] at h
  rcases hob : old_hearing_date tz hdq with _ | hstr
  · simp [parse_decision_old, hob] at h
  rcases fnq with _ | fname
  · simp [parse_decision_old, hob] at h
  rcases fsq with _ | fsize
  · simp [parse_decision_old, hob] at h
  simp only [parse_decision_old, hob, Option.bind_eq_bind, Option.some_bind,
    Option.some.injEq] at h
  subst h
  rfl

/-- C4 counterexample: on a host 5 hours east of UTC (Tashkent, where this
crawler runs), the normalizer turns `hearingDate = 1700000000000` into
`"2023-11-15T03:13:20"`, not the UTC conversion `"2023-11-14T22:13:20"` —
`datetime.fromtimestamp` without a `tz` argument converts in local time, so
the claimed "ISO-8601 UTC conversion" only holds on a UTC host. -/
theorem c4_counterexample_local_not_utc :
    (parse_decision_old 18000 c4Entry).map (fun d => d.hearing_date)
      = some "2023-11-15T03:13:20" ∧
    "2023-11-15T03:13:20" ≠ "2023-11-14T22:13:20" ∧
    isoOfEpochMs 1700000000000 = some "2023-11-14T22:13:20" :=
  ⟨rfl, by decide, rfl⟩

/-- C4 (amended): for an old-schema entry whose `hearingDate` is a nonzero
integer (epoch milliseconds), a successfully normalized record carries the
ISO-8601 rendering of that timestamp shifted by the host's local timezone
offset (`datetime.fromtimestamp` semantics); this equals the UTC conversion
exactly when the offset is zero. A missing `hearingDate` yields the empty
string. -/
theorem c4_amended_local_iso (tz : Int) (e : OldEntry) (d : CourtDecision) :
    (∀ n : Int, e.hearingDate = some (.int n) → n ≠ 0 →
      parse_decision_old tz e = some d →
      some d.hearing_date = pythonFromtimestampIso tz n) ∧
    (e.hearingDate = none → parse_decision_old tz e = some d →
      d.hearing_date = "") ∧
    (∀ n : Int, pythonFromtimestampIso 0 n = isoOfEpochMs n) := by
  refine ⟨?_, ?_, ?_⟩
  · intro n hn hnz hp
    have hb := parse_decision_old_hearing tz e d hp
    rw [hn] at hb
    unfold old_hearing_date at hb
    dsimp only at hb
    rw [if_pos hnz] at hb
    exact hb.symm
  · intro hn hp
    have hb := parse_decision_old_hearing tz e d hp
    rw [hn] at hb
    unfold old_hearing_date at hb
    dsimp only at hb
    exact (Option.some.inj hb).symm
  · intro n
    simp [pythonFromtimestampIso]

/-- C4 amended witness: the Tashkent-offset run on the concrete entry,
with every hypothesis discharged. -/
theorem c4_amended_local_iso_witness :
    some "2023-11-15T03:13:20" = pythonFromtimestampIso 18000 1700000000000 := by
  have h := (c4_amended_local_iso 18000 c4Entry c4RecordTashkent).1
    1700000000000 rfl (by decide) rfl
  simpa using h

/-! ## Claim theorems: orchestrator -/

/-- C3 counterexample: in a run where the page's only attachment downloads,
extracts and writes successfully, the full event trace contains exactly one
metadata write for the page — *before* the attachment batch — and nothing
after the batch: the records in the written artifact still have `None` text
paths even though the in-memory records (and hence the returned list) carry
the patches. The claimed re-persist of text-path patches never happens:
`parse_all_decisions` calls `save_metadata` at line 599 and never again. -/
theorem c3_counterexample_no_repersist :
    parse_all_decisions orcC3 baseParams =
      some ([plainOldRecordPatched],
            { pages_processed := 1, decisions_found := 1, errors := 0 },
            [CrawlEvent.fetchPage "old" 0,
             CrawlEvent.writeMetadata "old" 0 [plainOldRecord],
             CrawlEvent.runBatch "old" 0 [plainOldRecordPatched]]) ∧
    plainOldRecord.text_file_path = none ∧
    plainOldRecord.text_file_relative_path = none ∧
    plainOldRecordPatched.text_file_path = some "extracted_text/N-1_1.txt" ∧
    plainOldRecordPatched.text_extraction_success = true :=
  ⟨rfl, rfl, rfl, rfl, rfl⟩

/-- C3 (amended): within the processing of one page, the metadata write
always happens immediately before the attachment batch, and the batch — when
it runs — is the last event of the page: the page's events are one of
`[skip]`, `[]`, `[fetch]`, `[..fetch.., writeMetadata rs]` or
`[..fetch.., writeMetadata rs, runBatch (batch over rs)]`. In particular no
metadata write ever follows the batch, so the text-path patches are never
re-persisted to the page artifact; they survive only in the in-memory
records. -/
theorem c3_amended_metadata_before_batch (orc : CrawlOracles)
    (p : CrawlParams) (period : String) (first : PageData) (st : RunStats)
    (all : List CourtDecision) (page : Nat) :
    (processPage orc p period first st all page).2.1 =
        [CrawlEvent.skipExisting period page] ∨
    (processPage orc p period first st all page).2.1 = [] ∨
    (processPage orc p period first st all page).2.1 =
        [CrawlEvent.fetchPage period page] ∨
    (∃ rs : List CourtDecision, rs ≠ [] ∧
      ((processPage orc p period first st all page).2.1 =
         [CrawlEvent.writeMetadata period page rs] ∨
       (processPage orc p period first st all page).2.1 =
         [CrawlEvent.fetchPage period page,
          CrawlEvent.writeMetadata period page rs] ∨
       (processPage orc p period first st all page).2.1 =
         [CrawlEvent.writeMetadata period page rs,
          CrawlEvent.runBatch period page
            (download_pdfs_batch (batchOutcomes orc period page rs.length) rs)] ∨
       (processPage orc p period first st all page).2.1 =
         [CrawlEvent.fetchPage period page,
          CrawlEvent.writeMetadata period page rs,
          CrawlEvent.runBatch period page
            (download_pdfs_batch (batchOutcomes orc period page rs.length) rs)])) := by
  unfold processPage
  by_cases hskip : p.overwrite_files = false ∧ orc.existsMeta period page = true
  · rw [if_pos hskip]
    exact Or.inl rfl
  · rw [if_neg hskip]
    by_cases hfst : page = p.start_page ∧ p.start_page = 0
    · rw [if_pos hfst]
      rcases processFetchedPage_events orc p period st all page first []
        with h | ⟨rs, hne, h | h⟩
      · exact Or.inr (Or.inl h)
      · exact Or.inr (Or.inr (Or.inr ⟨rs, hne, Or.inl (by simpa using h)⟩))
      · exact Or.inr (Or.inr (Or.inr ⟨rs, hne,
          Or.inr (Or.inr (Or.inl (by simpa using h)))⟩))
    · rw [if_neg hfst]
      rcases hf : orc.fetch period page with _ | pd
      · exact Or.inr (Or.inr (Or.inl rfl))
      · rcases processFetchedPage_events orc p period st all page pd
            [CrawlEvent.fetchPage period page] with h | ⟨rs, hne, h | h⟩
        · exact Or.inr (Or.inr (Or.inl h))
        · exact Or.inr (Or.inr (Or.inr ⟨rs, hne,
            Or.inr (Or.inl (by simpa using h))⟩))
        · exact Or.inr (Or.inr (Or.inr ⟨rs, hne,
            Or.inr (Or.inr (Or.inr (by simpa using h)))⟩))

/-- C6 counterexample: a two-page run where page 0's metadata artifact
exists and overwrite is off. Page 0 is skipped without an in-loop fetch
(the trace shows `skipExisting` with no `fetchPage "old" 0` after it), but
`pages_processed` ends at 1, not 2: the `continue` at parser.py:571 jumps
past the `pages_processed += 1` at line 604, so a skipped page is *not*
counted as processed. -/
theorem c6_counterexample_skip_not_counted :
    parse_all_decisions orcC6 { baseParams with download_pdfs := false } =
      some ([plainOldRecord],
            { pages_processed := 1, decisions_found := 1, errors := 0 },
            [CrawlEvent.fetchPage "old" 0, CrawlEvent.skipExisting "old" 0,
             CrawlEvent.fetchPage "old" 1,
             CrawlEvent.writeMetadata "old" 1 [plainOldRecord]]) ∧
    (1 : Nat) ≠ 2 :=
  ⟨rfl, by decide⟩

/-- C6 (amended): when the page's metadata artifact exists and overwrite is
not requested, the page step emits only the skip event, performs no fetch,
and leaves the statistics — including `pages_processed` — completely
unchanged. -/
theorem c6_amended_skip_uncounted (orc : CrawlOracles) (p : CrawlParams)
    (period : String) (first : PageData) (st : RunStats)
    (all : List CourtDecision) (page : Nat)
    (hov : p.overwrite_files = false)
    (hex : orc.existsMeta period page = true) :
    processPage orc p period first st all page =
      (st, [CrawlEvent.skipExisting period page], all) :=
  processPage_skip_eq orc p period first st all page hov hex

/-- C6 amended witness: the concrete C6 environment's page 0. -/
theorem c6_amended_skip_uncounted_witness :
    processPage orcC6 { baseParams with download_pdfs := false } "old"
      pageTwoOf initStats [] 0 =
      (initStats, [CrawlEvent.skipExisting "old" 0], []) :=
  c6_amended_skip_uncounted orcC6 { baseParams with download_pdfs := false }
    "old" pageTwoOf initStats [] 0 rfl rfl

/-- C9 counterexample: with `start_page = 1`, `end_page = 1` and five total
pages, the claim says the section is skipped (startPage >= endPage) and no
page is processed; the code instead computes `actual_end_page = end+1 = 2`,
so page 1 is fetched, normalized and persisted, and `pages_processed = 1`. -/
theorem c9_counterexample_equal_start_end :
    parse_all_decisions orcC9
        { baseParams with download_pdfs := false, start_page := 1,
                          end_page := some 1 } =
      some ([plainOldRecord],
            { pages_processed := 1, decisions_found := 1, errors := 0 },
            [CrawlEvent.fetchPage "old" 0, CrawlEvent.fetchPage "old" 1,
             CrawlEvent.writeMetadata "old" 1 [plainOldRecord]]) ∧
    (1 : Nat) ≠ 0 :=
  ⟨rfl, by decide⟩

/-- C9 (amended): the effective range is
`range(startPage, min(endPage + 1, totalPages))` — `endPage` is inclusive.
The section loop is empty iff `startPage >= min(endPage + 1, totalPages)`;
in particular `startPage = endPage < totalPages` processes exactly the one
page `startPage`, not zero pages. -/
theorem c9_amended_inclusive_end_range :
    (∀ start e tp : Nat, start = e → e < tp →
      sectionPageList start (actualEndPage (some e) tp) = [start]) ∧
    (∀ (start tp : Nat) (ep : Option Nat),
      sectionPageList start (actualEndPage ep tp) = [] ↔
        actualEndPage ep tp ≤ start) := by
  constructor
  · intro start e tp h1 h2
    subst h1
    have hmin : actualEndPage (some start) tp = start + 1 := by
      simp only [actualEndPage]
      omega
    rw [hmin]
    show List.range' start (start + 1 - start) = [start]
    have : start + 1 - start = 1 := by omega
    rw [this]
    rfl
  · intro start tp ep
    have hlen : (sectionPageList start (actualEndPage ep tp)).length =
        actualEndPage ep tp - start := by
      simp [sectionPageList]
    constructor
    · intro h
      have := congrArg List.length h
      rw [hlen] at this
      simp at this
      omega
    · intro h
      have hz : (sectionPageList start (actualEndPage ep tp)).length = 0 := by
        rw [hlen]; omega
      exact List.eq_nil_of_length_eq_zero hz

/-- C9 amended witness: `startPage = endPage = 5` with ten total pages
iterates exactly page 5. -/
theorem c9_amended_inclusive_end_range_witness :
    sectionPageList 5 (actualEndPage (some 5) 10) = [5] :=
  c9_amended_inclusive_end_range.1 5 5 10 rfl (by decide)

/-- C10: a fetched page whose entries all normalize to nothing (or that has
no content) writes no metadata artifact, runs no attachment batch, yet
still increments `pages_processed`; and because the skip test is only the
existence of the metadata file, such a page is fetched again (not skipped)
on a later resume run with overwrite disabled. -/
theorem c10_empty_page_counted_but_unpersisted (orc : CrawlOracles)
    (p : CrawlParams) (period : String) (first : PageData) (st : RunStats)
    (all : List CourtDecision) (page : Nat) (pd : PageData)
    (hskip : p.overwrite_files = true ∨ orc.existsMeta period page = false)
    (hnostart : ¬(page = p.start_page ∧ p.start_page = 0))
    (hfetch : orc.fetch period page = some pd)
    (hempty : pd.content.filterMap (parse_decision_from_json orc.tzOffset period)
      = []) :
    processPage orc p period first st all page =
      ({ st with pages_processed := st.pages_processed + 1 },
       [CrawlEvent.fetchPage period page], all) := by
  have hcond : ¬(p.overwrite_files = false ∧ orc.existsMeta period page = true) := by
    rcases hskip with h | h <;> simp [h]
  unfold processPage
  rw [if_neg hcond, if_neg hnostart, hfetch]
  exact processFetchedPage_empty_eq orc p period st all page pd
    [CrawlEvent.fetchPage period page] hempty

/-- C10 witness: page 1 of a run whose fetched page contains only an entry
without attachments (dropped by the normalizer) and has no metadata
artifact on disk. -/
theorem c10_empty_page_counted_but_unpersisted_witness :
    processPage orcC10 baseParams "old" pageAllDropped initStats [] 1 =
      ({ pages_processed := 1, decisions_found := 0, errors := 0 },
       [CrawlEvent.fetchPage "old" 1], []) :=
  c10_empty_page_counted_but_unpersisted orcC10 baseParams "old"
    pageAllDropped initStats [] 1 pageAllDropped (Or.inr rfl)
    (by decide) rfl rfl
